import Mathlib

/-!
# Verification of the compgrid temporal-window evaluation engine

This file gives a shallow embedding of `src/compgrid/config.py` and the
evaluation entry point of `src/compgrid/compgrid.py`:

* a calendar-date model (`Date`) with the day arithmetic used by the window
  classes (`timedelta` subtraction/addition, Python's `date.weekday()`, the
  month-shift `while` loop and the day-decrementing clamp loop);
* the time-series table model (`Table`: per-date `total` and optional `over`
  series) and `calculate_total_over`;
* the window variants (`ColSpec`) and their `eval` methods;
* the window-expression parser `read_column_value_config` (Python `re.match`
  semantics: patterns anchor at the start of the token and ignore trailing
  characters);
* the config document validator (`read_config_from_string`,
  `read_column_config`, `read_row_config`) over line-annotated YAML values;
* the column composers (`NumberColumn`, `PctChangeColumn`, `SparklineColumn`)
  and `evaluate_row`.

Machine floats are modelled as `ℚ` plus an explicit `nan` marker (pandas
produces NaN for the mean of an empty selection); Python exceptions are
modelled with `Except`.
-/

/-- A Python `datetime.date`-style calendar date (fields unconstrained;
`isValidDate` captures `datetime`'s validity check). -/
structure Date where
  year : Int
  month : Int
  day : Int
deriving DecidableEq, Repr

/-- Gregorian leap-year rule (as used by Python's `calendar`/`datetime`). -/
def isLeap (y : Int) : Bool :=
  (y % 4 == 0 && y % 100 != 0) || y % 400 == 0

/-- Number of days in a month (month given 1..12). -/
def daysInMonth (y m : Int) : Int :=
  if m = 2 then (if isLeap y then 29 else 28)
  else if m = 4 ∨ m = 6 ∨ m = 9 ∨ m = 11 then 30
  else 31

/-- Validity of a date, mirroring `datetime.date`: year in
`MINYEAR..MAXYEAR = 1..9999`, month in `1..12`, day in `1..daysInMonth`. -/
def isValidDate (y m d : Int) : Prop :=
  1 ≤ y ∧ y ≤ 9999 ∧ 1 ≤ m ∧ m ≤ 12 ∧ 1 ≤ d ∧ d ≤ daysInMonth y m

instance (y m d : Int) : Decidable (isValidDate y m d) := by
  unfold isValidDate; infer_instance

/-- `isValidDate` on a `Date` value. -/
def Date.valid (t : Date) : Prop := isValidDate t.year t.month t.day

instance (t : Date) : Decidable t.valid := by
  unfold Date.valid; infer_instance

/-- Date comparison (`<=` on `datetime.date`); lexicographic on
(year, month, day), which is the calendar order for dates in y/m/d form. -/
def dateLe (a b : Date) : Prop :=
  a.year < b.year ∨
    (a.year = b.year ∧
      (a.month < b.month ∨ (a.month = b.month ∧ a.day ≤ b.day)))

instance (a b : Date) : Decidable (dateLe a b) := by
  unfold dateLe; infer_instance

/-- Strict date comparison (`<` on `datetime.date`). -/
def dateLt (a b : Date) : Prop :=
  a.year < b.year ∨
    (a.year = b.year ∧
      (a.month < b.month ∨ (a.month = b.month ∧ a.day < b.day)))

instance (a b : Date) : Decidable (dateLt a b) := by
  unfold dateLt; infer_instance

/-- The calendar day before `t` (valid-date to valid-date step used to model
`date - timedelta(days=1)`). -/
def predDate (t : Date) : Date :=
  if 1 < t.day then ⟨t.year, t.month, t.day - 1⟩
  else if 1 < t.month then ⟨t.year, t.month - 1, daysInMonth t.year (t.month - 1)⟩
  else ⟨t.year - 1, 12, 31⟩

/-- The calendar day after `t` (models `date + timedelta(days=1)`). -/
def succDate (t : Date) : Date :=
  if t.day < daysInMonth t.year t.month then ⟨t.year, t.month, t.day + 1⟩
  else if t.month < 12 then ⟨t.year, t.month + 1, 1⟩
  else ⟨t.year + 1, 1, 1⟩

/-- `t - timedelta(days=n)`. -/
def subDays (t : Date) : Nat → Date
  | 0 => t
  | n + 1 => predDate (subDays t n)

/-- `t + timedelta(days=n)`. -/
def addDays (t : Date) : Nat → Date
  | 0 => t
  | n + 1 => succDate (addDays t n)

/-- Sakamoto's day-of-week table entry for month `m` (1..12). -/
def sakamotoT (m : Int) : Int :=
  if m = 1 then 0 else if m = 2 then 3 else if m = 3 then 2
  else if m = 4 then 5 else if m = 5 then 0 else if m = 6 then 3
  else if m = 7 then 5 else if m = 8 then 1 else if m = 9 then 4
  else if m = 10 then 6 else if m = 11 then 2 else 4

/-- Day of week, 0 = Sunday (Sakamoto's formula; floor division and
euclidean remainder agree with Python `//` and `%` here). -/
def weekdaySun0 (t : Date) : Int :=
  let y := if t.month < 3 then t.year - 1 else t.year
  (y + y.fdiv 4 - y.fdiv 100 + y.fdiv 400 + sakamotoT t.month + t.day) % 7

/-- Python's `date.weekday()`: Monday = 0 .. Sunday = 6. -/
def pyWeekday (t : Date) : Int :=
  (weekdaySun0 t + 6) % 7

/-!
## Values and the time-series table

Evaluation results are Python floats / `None` / (because `NumberGoal` stores
`m.group(1)` without conversion) strings; a sparkline evaluates to a rendered
image payload, modelled here by the plotted per-day series since the PIL
rendering itself is an out-of-scope collaborator.
-/

/-- An evaluation result value. `nan` models the float NaN produced by pandas
when `.mean()` is taken over an empty selection. -/
inductive Val where
  | none
  | num (q : ℚ)
  | nan
  | str (s : List Char)
  | image (points : List (Option ℚ))
deriving DecidableEq, Repr

/-- One observation of the time-series table: a date, a numeric `total` and
(if the table has an `over` column) a numeric `over`. -/
structure Obs where
  date : Date
  total : ℚ
  over : ℚ := 0
deriving DecidableEq, Repr

/-- The per-row time-series table handed to `eval`: an `over` column is either
present for all rows or absent (a pandas DataFrame column). -/
structure Table where
  hasOver : Bool
  obs : List Obs
deriving DecidableEq, Repr

/-- Sum of `total` over the selected dates. -/
def selTotal (tbl : Table) (p : Date → Bool) : ℚ :=
  ((tbl.obs.filter (fun o => p o.date)).map Obs.total).sum

/-- Sum of `over` over the selected dates. -/
def selOver (tbl : Table) (p : Date → Bool) : ℚ :=
  ((tbl.obs.filter (fun o => p o.date)).map Obs.over).sum

/-- Number of selected rows. -/
def selCount (tbl : Table) (p : Date → Bool) : Nat :=
  (tbl.obs.filter (fun o => p o.date)).length

/-- `calculate_total_over` (config.py:14-23): given the aggregated `total`
and the aggregated `over` (absent when the table has no `over` series),
return `total` when there is no `over`, `None` on a zero `over`, and the
ratio otherwise. -/
def calculate_total_over (total : ℚ) (over : Option ℚ) : Val :=
  match over with
  | Option.none => .num total
  | some o => if o = 0 then .none else .num (total / o)

/-- The `df[...].sum()` + `calculate_total_over` pipeline every sum-type
window uses: sum `total` and `over` over the selection first, then divide
(the sum of an empty pandas selection is 0). -/
def sumAgg (tbl : Table) (p : Date → Bool) : Val :=
  calculate_total_over (selTotal tbl p)
    (if tbl.hasOver then some (selOver tbl p) else Option.none)

/-- The `df[...].mean()` + `calculate_total_over` pipeline
(`TrailingAverage`, `MonthToDateAverage`): the mean of an empty pandas
selection is NaN, and NaN propagates through `calculate_total_over`
(`NaN == 0` is false, and arithmetic on NaN stays NaN). -/
def meanAgg (tbl : Table) (p : Date → Bool) : Val :=
  let k := selCount tbl p
  if k = 0 then .nan
  else calculate_total_over (selTotal tbl p / (k : ℚ))
    (if tbl.hasOver then some (selOver tbl p / (k : ℚ)) else Option.none)

/-!
## Line-annotated YAML values and the runtime row object
-/

/-- A YAML scalar/collection as loaded by `SafeLineLoader` (mappings carry a
`__line__` entry; scalars beyond strings and ints do not appear in the
configs the claims range over). -/
inductive YVal where
  | str (s : String)
  | int (n : Int)
  | list (xs : List YVal)
  | map (es : List (String × YVal))

/-- `k in v` for a YAML mapping (`False` on non-mappings, which the claims
never exercise). -/
def yMem (k : String) : YVal → Bool
  | .map es => es.any (fun e => e.1 == k)
  | _ => false

/-- `v[k]` lookup on a YAML mapping. -/
def yGet (k : String) : YVal → Option YVal
  | .map es => (es.find? (fun e => e.1 == k)).map Prod.snd
  | _ => Option.none

/-- Python's `str()` of a YAML scalar, used in error messages (collections do
not occur in the error paths the claims exercise). -/
def yStr : YVal → String
  | .str s => s
  | .int n => toString n
  | .list _ => "[...]"
  | .map _ => "{...}"

/-- `node["__line__"]`: `SafeLineLoader` attaches an int line to every
mapping; anything else raises `KeyError` in Python. -/
inductive PyErr where
  | configError (msg : String) (line : Int)
  | keyError (key : String)
  | valueError
  | typeError
deriving DecidableEq, Repr

/-- Fetch the `__line__` annotation of a mapping node. -/
def lineOf (v : YVal) : Except PyErr Int :=
  match yGet "__line__" v with
  | some (.int n) => .ok n
  | _ => .error (.keyError "__line__")

/-- One evaluated cell (`compgrid.py` `ColumnValue`): column name, display
template, raw value, the row's display type. -/
structure ColumnValue where
  name : Option YVal
  template : String
  value : Val
  type : String

/-- The runtime row object (`config.py` `Row`, as used by `evaluate_row` and
`FieldGoal.eval`): the parsed fields plus the mutable `columns` result slot
and the `connection` attribute that `evaluate_row` sets.  The database
connection is an external collaborator; it is modelled as an oracle mapping
a field-goal query field to the summed-ratio value the collaborator's query
would produce. -/
structure PyRow where
  name : YVal
  query : YVal
  type : String
  styleName : String
  fields : YVal
  columns : List ColumnValue := []
  connection : Option (String → Val) := Option.none

/-!
## Month arithmetic shared by `Month` / `MonthAgo` / `MonthToDate`
-/

/-- One-step-per-unit fuelled form of the `while new_month < 1` loop: each
iteration advances `m` by 12, so `(1 - m).toNat` units of fuel always
suffice. -/
def normMonthsAux (y m : Int) : Nat → Int × Int
  | 0 => (y, m)
  | k + 1 => if m < 1 then normMonthsAux (y - 1) (m + 12) k else (y, m)

/-- The `while new_month < 1: new_month += 12; new_year -= 1` normalisation
loop (config.py:133-137 and analogues). -/
def normMonths (y m : Int) : Int × Int :=
  normMonthsAux y m (1 - m).toNat

/-- The `extra_days` day-decrementing loop of `MonthAgo.eval` /
`MonthToDate.eval`: try `day`, `day - 1`, ... until `date.replace` accepts.
Day 0 is never a valid day, so reaching it models the (unreachable for real
anchor dates) case where the Python loop would never terminate. -/
def clampDayAux (y m : Int) : Nat → Int
  | 0 => 0
  | k + 1 => if isValidDate y m (k + 1 : Int) then (k + 1 : Int) else clampDayAux y m k

/-- The single date `MonthAgo(n)` / `MonthToDate(n)` target: shift back `n`
months, then decrement the day until the date is valid. -/
def monthAgoDate (t : Date) (monthsAgo : Nat) : Date :=
  let ym := normMonths t.year (t.month - (monthsAgo : Int))
  ⟨ym.1, ym.2, clampDayAux ym.1 ym.2 t.day.toNat⟩

/-- The `for _ in range(months_ago)` loop of `MonthToDateAverage.eval`:
step `month_start` to the first of the previous month and re-anchor `today`
in that month; `today.replace(month=..., year=...)` raises `ValueError` when
`today.day` does not exist in the target month. -/
def mtdavgAdjust : Nat → Date → Date → Except PyErr (Date × Date)
  | 0, ms, t => .ok (ms, t)
  | k + 1, ms, t =>
    let pm := predDate ms
    let ms' : Date := ⟨pm.year, pm.month, 1⟩
    if isValidDate ms'.year ms'.month t.day then
      mtdavgAdjust k ms' ⟨ms'.year, ms'.month, t.day⟩
    else .error .valueError

/-!
## The window variants and their `eval` methods
-/

/-- The `Column` subclasses of config.py holding a window selection rule
(the spec's `WindowSpec`).  `NumberGoal` stores the matched digit *string*
(`m.group(1)`, config.py:424), exactly as the source does. -/
inductive ColSpec where
  | DaysAgo (days : Nat)
  | WeekdayWeekend (days : Nat)
  | TrailingAverage (days : Nat)
  | Month (monthsAgo : Nat)
  | MonthAgo (monthsAgo : Nat)
  | WeeksAgo (weeksAgo : Nat)
  | WeekToDate (weeksAgo : Nat)
  | MonthToDate (monthsAgo : Nat)
  | MonthToDateAverage (monthsAgo : Nat)
  | SinceDate (since : Date)
  | NumberGoal (number : List Char)
  | FieldGoal (fieldName : List Char)
deriving DecidableEq, Repr

/-- `spec.eval(df, today, row)` for every window variant (config.py:74-264).
Each range window filters the table, aggregates with `.sum()` or `.mean()`,
and only then applies `calculate_total_over`. -/
def ColSpec.eval : ColSpec → Table → Date → Option PyRow → Except PyErr Val
  | .DaysAgo n, tbl, today, _ =>
    .ok (sumAgg tbl (fun d => decide (d = subDays today n)))
  | .WeekdayWeekend n, tbl, today, _ =>
    let endDate := subDays today n
    let startDate :=
      if 5 ≤ pyWeekday endDate then subDays endDate (pyWeekday endDate - 4).toNat
      else endDate
    .ok (sumAgg tbl (fun d => decide (dateLe startDate d ∧ dateLe d endDate)))
  | .TrailingAverage n, tbl, today, _ =>
    .ok (meanAgg tbl (fun d => decide (dateLt d today ∧ dateLe (subDays today n) d)))
  | .Month n, tbl, today, _ =>
    let ym := normMonths today.year (today.month - (n : Int))
    if isValidDate ym.1 ym.2 1 then
      let monthStart : Date := ⟨ym.1, ym.2, 1⟩
      let shifted := addDays monthStart 31
      let monthEnd := predDate ⟨shifted.year, shifted.month, 1⟩
      .ok (sumAgg tbl (fun d => decide (dateLe d monthEnd ∧ dateLe monthStart d)))
    else .error .valueError
  | .MonthAgo n, tbl, today, _ =>
    .ok (sumAgg tbl (fun d => decide (d = monthAgoDate today n)))
  | .WeeksAgo n, tbl, today, _ =>
    let t' := succDate today
    let weekStart := subDays (subDays t' (pyWeekday t').toNat) (7 * n)
    let weekEnd := addDays weekStart 6
    .ok (sumAgg tbl (fun d => decide (dateLe d weekEnd ∧ dateLe weekStart d)))
  | .WeekToDate n, tbl, today, _ =>
    let weekStart := subDays (subDays today (pyWeekday today).toNat) (7 * n)
    let t' := subDays today (7 * n)
    .ok (sumAgg tbl (fun d => decide (dateLe d t' ∧ dateLe weekStart d)))
  | .MonthToDate n, tbl, today, _ =>
    let target := monthAgoDate today n
    let monthStart : Date := ⟨target.year, target.month, 1⟩
    .ok (sumAgg tbl (fun d => decide (dateLe d target ∧ dateLe monthStart d)))
  | .MonthToDateAverage n, tbl, today, _ => do
    let p ← mtdavgAdjust n ⟨today.year, today.month, 1⟩ today
    .ok (meanAgg tbl (fun d => decide (dateLe d p.2 ∧ dateLe p.1 d)))
  | .SinceDate s, tbl, today, _ =>
    .ok (sumAgg tbl (fun d => decide (dateLe d today ∧ dateLe s d)))
  | .NumberGoal s, _, _, _ => .ok (.str s)
  | .FieldGoal fname, _, _, row =>
    match row with
    | Option.none => .ok .none
    | some r =>
      match yGet (String.mk fname) r.fields with
      | Option.none => .ok .none
      | some (.int v) => .ok (.num v)
      | some (.str s) =>
        -- Field value is a query path: file resolution, the SQL execution and
        -- the summed-ratio of its result are the external collaborator,
        -- modelled by the row's connection oracle.
        match r.connection with
        | some runQuery => .ok (runQuery s)
        | Option.none => .error .typeError
      | some _ => .error .typeError

/-!
## The window expression parser (`read_column_value_config`)

Python's `re.match` anchors at the start of the token only: a pattern match
consumes a prefix and ignores any trailing characters.  Literal comparisons
(`text == "yesterday"`) are whole-token equality.
-/

/-- Match a literal prefix, returning the remainder of the token. -/
def stripPref : List Char → List Char → Option (List Char)
  | [], rest => some rest
  | _ :: _, [] => Option.none
  | p :: ps, c :: cs => if c = p then stripPref ps cs else Option.none

/-- Greedy `\d+`: split off the maximal leading digit run. -/
def takeDigits : List Char → List Char × List Char
  | [] => ([], [])
  | c :: cs =>
    if c.isDigit then
      let r := takeDigits cs
      (c :: r.1, r.2)
    else ([], c :: cs)

/-- Python `int()` on a digit string. -/
def digitsToNat (ds : List Char) : Nat :=
  ds.foldl (fun a c => 10 * a + (c.toNat - 48)) 0

/-- `re.match(r"NAME\((\d+)\)", text)`: the pattern prefix, then one or more
digits, then `)`; anything after the `)` is ignored. -/
def matchParenDigits (pat text : List Char) : Option (List Char) :=
  match stripPref pat text with
  | Option.none => Option.none
  | some rest =>
    let td := takeDigits rest
    if td.1 = [] then Option.none
    else
      match td.2 with
      | ')' :: _ => some td.1
      | _ => Option.none

/-- Greedy `[^)]+`: split off the maximal leading run of non-`)`
characters. -/
def takeNonParen : List Char → List Char × List Char
  | [] => ([], [])
  | c :: cs =>
    if c = ')' then ([], c :: cs)
    else
      let r := takeNonParen cs
      (c :: r.1, r.2)

/-- `re.match(r"goal\(([^)]+)\)", text)`: the pattern prefix, then one or
more non-`)` characters, then `)`. -/
def matchParenField (pat text : List Char) : Option (List Char) :=
  match stripPref pat text with
  | Option.none => Option.none
  | some rest =>
    let td := takeNonParen rest
    if td.1 = [] then Option.none
    else
      match td.2 with
      | ')' :: _ => some td.1
      | _ => Option.none

def yesterdayLit : List Char := ['y', 'e', 's', 't', 'e', 'r', 'd', 'a', 'y']

def weekdayweekendLit : List Char :=
  ['w', 'e', 'e', 'k', 'd', 'a', 'y', 'w', 'e', 'e', 'k', 'e', 'n', 'd']

def lastweekLit : List Char := ['l', 'a', 's', 't', 'w', 'e', 'e', 'k']

def monthLit : List Char := ['m', 'o', 'n', 't', 'h']

def monthagoLit : List Char := ['m', 'o', 'n', 't', 'h', 'a', 'g', 'o']

def wtdLit : List Char := ['w', 't', 'd']

def mtdavgLit : List Char := ['m', 't', 'd', 'a', 'v', 'g']

def mtdLit : List Char := ['m', 't', 'd']

def daysagoPat : List Char := ['d', 'a', 'y', 's', 'a', 'g', 'o', '(']

def weekPat : List Char := ['w', 'e', 'e', 'k', '(']

def trailingavgPat : List Char :=
  ['t', 'r', 'a', 'i', 'l', 'i', 'n', 'g', 'a', 'v', 'g', '(']

def monthPat : List Char := ['m', 'o', 'n', 't', 'h', '(']

def monthagoPat : List Char := ['m', 'o', 'n', 't', 'h', 'a', 'g', 'o', '(']

def wtdPat : List Char := ['w', 't', 'd', '(']

def mtdavgPat : List Char := ['m', 't', 'd', 'a', 'v', 'g', '(']

def mtdPat : List Char := ['m', 't', 'd', '(']

def sincePat : List Char := ['s', 'i', 'n', 'c', 'e', '(']

def goalPat : List Char := ['g', 'o', 'a', 'l', '(']

/-- `re.match(r"since\((\d\d\d\d-\d\d-\d\d)\)", text)` followed by
`datetime.strptime(..., "%Y-%m-%d")`'s digit extraction: exactly
4-2-2 digits separated by `-`, then `)`, trailing characters ignored. -/
def matchSince (text : List Char) : Option (Int × Int × Int) :=
  match stripPref sincePat text with
  | Option.none => Option.none
  | some rest =>
    match rest with
    | y1 :: y2 :: y3 :: y4 :: '-' :: m1 :: m2 :: '-' :: d1 :: d2 :: ')' :: _ =>
      if y1.isDigit && y2.isDigit && y3.isDigit && y4.isDigit &&
          m1.isDigit && m2.isDigit && d1.isDigit && d2.isDigit then
        some ((digitsToNat [y1, y2, y3, y4] : Int),
          (digitsToNat [m1, m2] : Int), (digitsToNat [d1, d2] : Int))
      else Option.none
    | _ => Option.none

/-- `read_column_value_config` (config.py:387-428): the ordered
literal-equality / `re.match` dispatch chain.  `strptime` raises
`ValueError` when the matched `since` digits do not form a real calendar
date; `goal(<digits>)` builds a `NumberGoal` holding the digit string. -/
def read_column_value_config (text : List Char) (line : Int) : Except PyErr ColSpec :=
  if text = yesterdayLit then .ok (.DaysAgo 0)
  else if text = weekdayweekendLit then .ok (.WeekdayWeekend 0)
  else
    match matchParenDigits daysagoPat text with
    | some ds => .ok (.DaysAgo (digitsToNat ds))
    | Option.none =>
      if text = lastweekLit then .ok (.WeeksAgo 1)
      else
        match matchParenDigits weekPat text with
        | some ds => .ok (.WeeksAgo (digitsToNat ds))
        | Option.none =>
          match matchParenDigits trailingavgPat text with
          | some ds => .ok (.TrailingAverage (digitsToNat ds))
          | Option.none =>
            if text = monthLit then .ok (.Month 1)
            else
              match matchParenDigits monthPat text with
              | some ds => .ok (.Month (digitsToNat ds))
              | Option.none =>
                if text = monthagoLit then .ok (.MonthAgo 1)
                else
                  match matchParenDigits monthagoPat text with
                  | some ds => .ok (.MonthAgo (digitsToNat ds))
                  | Option.none =>
                    if text = wtdLit then .ok (.WeekToDate 0)
                    else
                      match matchParenDigits wtdPat text with
                      | some ds => .ok (.WeekToDate (digitsToNat ds))
                      | Option.none =>
                        if text = mtdavgLit then .ok (.MonthToDateAverage 0)
                        else
                          match matchParenDigits mtdavgPat text with
                          | some ds => .ok (.MonthToDateAverage (digitsToNat ds))
                          | Option.none =>
                            if text = mtdLit then .ok (.MonthToDate 0)
                            else
                              match matchParenDigits mtdPat text with
                              | some ds => .ok (.MonthToDate (digitsToNat ds))
                              | Option.none =>
                                match matchSince text with
                                | some ymd =>
                                  if isValidDate ymd.1 ymd.2.1 ymd.2.2 then
                                    .ok (.SinceDate ⟨ymd.1, ymd.2.1, ymd.2.2⟩)
                                  else .error .valueError
                                | Option.none =>
                                  match matchParenDigits goalPat text with
                                  | some ds => .ok (.NumberGoal ds)
                                  | Option.none =>
                                    match matchParenField goalPat text with
                                    | some ds => .ok (.FieldGoal ds)
                                    | Option.none =>
                                      .error (.configError
                                        ("unknown column value '" ++ String.mk text ++ "'") line)

/-!
## Column composers (`NumberColumn`, `PctChangeColumn`, `SparklineColumn`)
-/

/-- Python `value == 0` on an evaluation result: true only for the float 0
(`NaN == 0` and `"s" == 0` are false). -/
def valIsZero : Val → Bool
  | .num q => decide (q = 0)
  | _ => false

/-- The body of `PctChangeColumn.eval` after both sub-evaluations
(config.py:362-371): `None` short-circuit, the two zero-base cases, then
`100.0 * value / base - 100.0` (NaN propagates through the float
arithmetic; a string operand raises `TypeError`). -/
def pctChangeCombine (value base : Val) : Except PyErr Val :=
  if value = .none ∨ base = .none then .ok .none
  else if valIsZero base ∧ valIsZero value then .ok (.num 0)
  else if valIsZero base then .ok .none
  else
    match value, base with
    | .num v, .num b => .ok (.num (100 * v / b - 100))
    | .nan, .num _ => .ok .nan
    | .num _, .nan => .ok .nan
    | .nan, .nan => .ok .nan
    | _, _ => .error .typeError

/-- A parsed column definition (the three `type:` variants of the config). -/
inductive ParsedColumn where
  | number (name : YVal) (value : ColSpec)
  | pctchange (name : YVal) (value : ColSpec) (base : ColSpec)
  | sparkline (name : Option YVal) (days : YVal)

/-- `column.name` (sparkline reads it with `.get`, so it may be absent). -/
def ParsedColumn.name : ParsedColumn → Option YVal
  | .number nm _ => some nm
  | .pctchange nm _ _ => some nm
  | .sparkline nm _ => nm

/-- `column.template`. -/
def ParsedColumn.template : ParsedColumn → String
  | .number _ _ => "column_number.md"
  | .pctchange _ _ _ => "column_pctchange.md"
  | .sparkline _ _ => "column_sparkline.md"

/-- The per-day series `SparklineColumn.eval` plots over
`[today - days, today]`: a missing date is a gap; with an `over` column each
day plots `total / over` (the float `inf`/`NaN` a zero `over` produces is
collapsed to a gap here; the PIL rendering of the series is the
out-of-scope image collaborator, so the payload is modelled as the series
itself). -/
def sparkSeries (tbl : Table) (today : Date) (n : Nat) : List (Option ℚ) :=
  (List.range (n + 1)).map (fun i =>
    match tbl.obs.find? (fun o => decide (o.date = subDays today (n - i))) with
    | Option.none => Option.none
    | some o =>
      if tbl.hasOver then
        (if o.over = 0 then Option.none else some (o.total / o.over))
      else some o.total)

/-- `column.eval(df, today, row)` for the three column variants
(`NumberColumn.eval` config.py:333, `PctChangeColumn.eval` config.py:362,
`SparklineColumn.eval` config.py:306). -/
def ParsedColumn.eval : ParsedColumn → Table → Date → Option PyRow → Except PyErr Val
  | .number _ v, tbl, today, row => v.eval tbl today row
  | .pctchange _ v b, tbl, today, row => do
    let vv ← v.eval tbl today row
    let bv ← b.eval tbl today row
    pctChangeCombine vv bv
  | .sparkline _ days, tbl, today, _ =>
    match days with
    | .int n => if 0 ≤ n then .ok (.image (sparkSeries tbl today n.toNat)) else .ok (.image [])
    | _ => .error .typeError

/-!
## Config document validation
-/

/-- `NumberColumn.from_config` (config.py:324-331). -/
def NumberColumn_from_config (config : YVal) : Except PyErr ParsedColumn := do
  let line ← lineOf config
  match yGet "name" config with
  | Option.none => .error (.configError "missing name attribute for column" line)
  | some nm =>
    match yGet "value" config with
    | Option.none => .error (.configError "missing value attribute for column" line)
    | some (.str s) => (read_column_value_config s.data line).map (ParsedColumn.number nm)
    | some _ => .error .typeError

/-- `PctChangeColumn.from_config` (config.py:347-360). -/
def PctChangeColumn_from_config (config : YVal) : Except PyErr ParsedColumn := do
  let line ← lineOf config
  match yGet "name" config with
  | Option.none => .error (.configError "missing name attribute for column" line)
  | some nm =>
    match yGet "value" config with
    | Option.none => .error (.configError "missing value attribute for column" line)
    | some (.str vs) =>
      match yGet "base" config with
      | Option.none => .error (.configError "missing base attribute for column" line)
      | some (.str bs) => do
        let v ← read_column_value_config vs.data line
        let b ← read_column_value_config bs.data line
        .ok (ParsedColumn.pctchange nm v b)
      | some _ => .error .typeError
    | some _ => .error .typeError

/-- `SparklineColumn.from_config` (config.py:273-277): `.get` lookups, no
validation, never raises. -/
def SparklineColumn_from_config (config : YVal) : Except PyErr ParsedColumn :=
  .ok (ParsedColumn.sparkline (yGet "name" config)
    (match yGet "days" config with | some v => v | Option.none => .int 30))

/-- The per-column body of `read_column_config` (config.py:433-448). -/
def parseColumn (column : YVal) : Except PyErr ParsedColumn :=
  match yGet "type" column with
  | Option.none => do
    let line ← lineOf column
    .error (.configError "missing type attribute for column" line)
  | some t =>
    match t with
    | .str s =>
      if s = "number" then NumberColumn_from_config column
      else if s = "pctchange" then PctChangeColumn_from_config column
      else if s = "sparkline" then SparklineColumn_from_config column
      else do
        let line ← lineOf column
        .error (.configError ("unknown column type '" ++ s ++ "'") line)
    | other => do
      let line ← lineOf column
      .error (.configError ("unknown column type '" ++ yStr other ++ "'") line)

/-- `read_column_config` (config.py:431-450): parse columns in order,
stopping at the first violation. -/
def read_column_config : List YVal → Except PyErr (List ParsedColumn)
  | [] => .ok []
  | c :: rest => do
    let pc ← parseColumn c
    let prest ← read_column_config rest
    .ok (pc :: prest)

/-- The per-row body of `read_row_config` (config.py:453-479): required
`name`/`query`, `type` defaulting to `float` within an enum, `style`
defaulting to `positive-green` within the `STYLES` table, and the whole row
mapping kept as the field mapping. -/
def parseRow (row : YVal) : Except PyErr PyRow :=
  match yGet "name" row with
  | Option.none => do
    let line ← lineOf row
    .error (.configError "missing name attribute for row" line)
  | some nm =>
    match yGet "query" row with
    | Option.none => do
      let line ← lineOf row
      .error (.configError "missing query attribute for row" line)
    | some q =>
      match (match yGet "type" row with | some t => t | Option.none => .str "float") with
      | .str ts =>
        if ts = "number" ∨ ts = "float" ∨ ts = "percent" ∨ ts = "currency" then
          match (match yGet "style" row with | some st => st | Option.none => .str "positive-green") with
          | .str ss =>
            if ss = "positive-green" ∨ ss = "negative-green" ∨ ss = "neutral" then
              .ok { name := nm, query := q, type := ts, styleName := ss, fields := row }
            else do
              let line ← lineOf row
              .error (.configError ("unknown row style '" ++ ss ++ "'") line)
          | other => do
            let line ← lineOf row
            .error (.configError ("unknown row style '" ++ yStr other ++ "'") line)
        else do
          let line ← lineOf row
          .error (.configError ("unknown row type '" ++ ts ++ "'") line)
      | other => do
        let line ← lineOf row
        .error (.configError ("unknown row type '" ++ yStr other ++ "'") line)

/-- `read_row_config` (config.py:453-479), first violation wins. -/
def read_row_config : List YVal → Except PyErr (List PyRow)
  | [] => .ok []
  | r :: rest => do
    let pr ← parseRow r
    let prest ← read_row_config rest
    .ok (pr :: prest)

/-- Lookup in the toplevel document mapping. -/
def dictGet (es : List (String × YVal)) (k : String) : Option YVal :=
  (es.find? (fun e => e.1 == k)).map Prod.snd

/-- The validated document: the original toplevel entries with the parsed
column and row lists substituted in. -/
structure ConfigDocument where
  entries : List (String × YVal)
  columns : List ParsedColumn
  rows : List PyRow

/-- `read_config_from_string` (config.py:501-523) on the already-YAML-loaded
toplevel mapping: `name` then `columns` presence, `columns` must be a list,
columns parsed, then the `rows` guard — note the source only checks
`isinstance(config["rows"], list)` *inside* `if "rows" in config`, but then
unconditionally evaluates `read_row_config(config["rows"])`, so an absent
`rows` key raises an uncaught `KeyError` (the `except` clause only catches
`ConfigError`). -/
def read_config_from_string (config : List (String × YVal)) : Except PyErr ConfigDocument :=
  match dictGet config "name" with
  | Option.none => .error (.configError "missing toplevel name attribute" 1)
  | some _ =>
    match dictGet config "columns" with
    | Option.none => .error (.configError "missing toplevel columns attribute" 1)
    | some (.list cols) => do
      let pcols ← read_column_config cols
      match dictGet config "rows" with
      | some (.list rows) => do
        let prows ← read_row_config rows
        .ok ⟨config, pcols, prows⟩
      | some _ => .error (.configError "rows must be a list" 1)
      | Option.none => .error (.keyError "rows")
    | some _ => .error (.configError "columns must be a list" 1)

/-!
## `evaluate_row` (compgrid.py:51-72)
-/

/-- The `for column in columns` loop of `evaluate_row`: evaluate each column
in declaration order against the row's table and collect the new
`ColumnValue(name=column.name, template=column.template, value=result,
type=row.type)` objects. -/
def evalColumns (df : Table) (yesterday : Date) (row1 : PyRow) (rt : String) :
    List ParsedColumn → Except PyErr (List ColumnValue)
  | [] => .ok []
  | c :: rest => do
    let v ← ParsedColumn.eval c df yesterday (some row1)
    let others ← evalColumns df yesterday row1 rt rest
    .ok ({ name := c.name, template := c.template, value := v, type := rt } :: others)

/-- `evaluate_row(row, config, connection)`: sets `row.connection`, runs the
row's query (the `df` argument models the query-execution collaborator's
result), evaluates every column against it, builds the new `ColumnValue`
objects and stores them on the row (`row.columns = results`). -/
def evaluate_row (row : PyRow) (columns : List ParsedColumn) (df : Table)
    (yesterday : Date) (connection : String → Val) : Except PyErr PyRow :=
  let row1 := { row with connection := some connection }
  match evalColumns df yesterday row1 row.type columns with
  | .ok results => .ok { row1 with columns := results }
  | .error e => .error e

/-- Decidable equality of modelled Python results. -/
instance {ε α : Type} [DecidableEq ε] [DecidableEq α] : DecidableEq (Except ε α) := fun a b =>
  match a, b with
  | .ok x, .ok y =>
    if h : x = y then .isTrue (h ▸ rfl) else .isFalse (fun he => h (Except.ok.inj he))
  | .error x, .error y =>
    if h : x = y then .isTrue (h ▸ rfl) else .isFalse (fun he => h (Except.error.inj he))
  | .ok _, .error _ => .isFalse (fun he => Except.noConfusion he)
  | .error _, .ok _ => .isFalse (fun he => Except.noConfusion he)

/-!
## Derived selection bounds and spec-side reference definitions
-/

/-- The Monday starting the week `WeeksAgo(n)` selects: the code shifts the
anchor forward one day, backs up to that week's Monday, then back `7 n`
days (config.py:157-163). -/
def weeksAgoStart (today : Date) (n : Nat) : Date :=
  subDays (subDays (succDate today) (pyWeekday (succDate today)).toNat) (7 * n)

/-- The Sunday ending the `WeeksAgo(n)` week. -/
def weeksAgoEnd (today : Date) (n : Nat) : Date :=
  addDays (weeksAgoStart today n) 6

/-- The date filter of `WeeksAgo(n).eval`. -/
def weeksAgoSel (today : Date) (n : Nat) : Date → Bool :=
  fun d => decide (dateLe d (weeksAgoEnd today n) ∧ dateLe (weeksAgoStart today n) d)

/-- Embed a numeric-or-`None` sub-result into the value domain. -/
def toVal : Option ℚ → Val
  | Option.none => .none
  | some q => .num q

/-- The percent-change result exactly as the spec words it: `None` if either
side is `None`, `0` if both are zero, `None` on a zero base with nonzero
value, else `100 * value / base - 100`.  Stated from the spec for
comparison against `pctChangeCombine`. -/
def pctChangeSpec : Option ℚ → Option ℚ → Option ℚ
  | Option.none, _ => Option.none
  | _, Option.none => Option.none
  | some v, some b =>
    if v = 0 ∧ b = 0 then some 0
    else if b = 0 then Option.none
    else some (100 * v / b - 100)

/-!
## Concrete instances used by witnesses and counterexamples
-/

/-- A ratio table: Mon 2023-10-09 has `over = 0`, Tue 2023-10-10 has
`over = 5`; both lie in the Mon-Sun week around Wed 2023-10-11. -/
def tblWeekMix : Table :=
  ⟨true, [⟨⟨2023, 10, 9⟩, 10, 0⟩, ⟨⟨2023, 10, 10⟩, 10, 5⟩]⟩

/-- A total-only table with a single observation on 2023-10-09. -/
def tblSingleNoOver : Table := ⟨false, [⟨⟨2023, 10, 9⟩, 5, 0⟩]⟩

/-- A total-only table covering Fri 2023-10-13 (1), Sat 2023-10-14 (2) and
Sun 2023-10-15 (4). -/
def tblWkd : Table :=
  ⟨false, [⟨⟨2023, 10, 13⟩, 1, 0⟩, ⟨⟨2023, 10, 14⟩, 2, 0⟩, ⟨⟨2023, 10, 15⟩, 4, 0⟩]⟩

/-- A total-only table with 10 on 2023-10-10 and 5 on 2023-10-09. -/
def tblPct : Table := ⟨false, [⟨⟨2023, 10, 10⟩, 10, 0⟩, ⟨⟨2023, 10, 9⟩, 5, 0⟩]⟩

/-- A total-only table with a single observation on 2023-02-28 (the clamped
`MonthAgo(1)` target for anchor 2023-03-31). -/
def tblFebEnd : Table := ⟨false, [⟨⟨2023, 2, 28⟩, 9, 0⟩]⟩

/-- A `number` column mapping node (line 2). -/
def colSinceY : YVal :=
  .map [("name", .str "overall"), ("type", .str "number"),
    ("value", .str "since(2000-01-01)"), ("__line__", .int 2)]

/-- A column mapping node lacking `type` (line 3). -/
def colNoTypeY : YVal :=
  .map [("name", .str "overall"), ("value", .str "since(2000-01-01)"),
    ("__line__", .int 3)]

/-- A document with `name` but no `columns`. -/
def cfgMissingCols : List (String × YVal) :=
  [("name", .str "thealth"), ("__line__", .int 1)]

/-- A document whose second column lacks `type`. -/
def cfgColNoType : List (String × YVal) :=
  [("name", .str "t"), ("columns", .list [colSinceY, colNoTypeY]),
    ("rows", .list []), ("__line__", .int 1)]

/-- A well-formed document with no `rows` key at all. -/
def cfgNoRows : List (String × YVal) :=
  [("name", .str "t"), ("columns", .list [colSinceY]), ("__line__", .int 1)]

/-- The same document with a non-list `rows`. -/
def cfgRowsNotList : List (String × YVal) :=
  [("name", .str "t"), ("columns", .list [colSinceY]), ("rows", .str "oops"),
    ("__line__", .int 1)]

/-- A freshly parsed row object: empty `columns`, no `connection`. -/
def rowFresh : PyRow :=
  ⟨.str "r", .str "q", "number", "positive-green", .map [], [], Option.none⟩

/-- A trivial connection oracle. -/
def oracleNone : String → Val := fun _ => .none

/-- The row object `evaluate_row` produces from `rowFresh` and a single
`DaysAgo(0)` number column over `tblSingleNoOver` anchored on 2023-10-11
(no observation on the target date, so the cell value is the empty sum 0):
same parsed fields, but `connection` set and `columns` filled. -/
def rowAfterC9 : PyRow :=
  { rowFresh with
    connection := some oracleNone
    columns := [⟨some (.str "c"), "column_number.md", .num 0, "number"⟩] }

/-!
## Shared evaluation lemmas
-/

/-- A window whose selection matches no table date aggregates the empty
selection: `total` and `over` both sum to 0, so the result is `None` when
the table has an `over` series and the float 0 otherwise. -/
theorem sumAgg_of_no_match (tbl : Table) (p : Date → Bool)
    (h : ∀ o ∈ tbl.obs, p o.date = false) :
    sumAgg tbl p = if tbl.hasOver then Val.none else Val.num 0 := by
  have hf : tbl.obs.filter (fun o => p o.date) = [] :=
    List.filter_eq_nil_iff.mpr (by simpa using h)
  unfold sumAgg selTotal selOver calculate_total_over
  rw [hf]
  cases tbl.hasOver <;> simp

/-!
## C1 — ratio windows: aggregation order
-/

/-- C1 (amended): `WeeksAgo(n).eval` aggregates first and divides after: it
sums `total` and `over` separately over the matched Mon-Sun week and then
applies `calculate_total_over` to the two sums, so the result is `None`
exactly when the table has an `over` series whose matched sum is 0 — not
whenever some individual matched date has `over = 0`. -/
theorem weeksAgo_sums_before_ratio (n : Nat) (tbl : Table) (today : Date)
    (row : Option PyRow) :
    ColSpec.eval (.WeeksAgo n) tbl today row =
      .ok (if tbl.hasOver then
        (if selOver tbl (weeksAgoSel today n) = 0 then Val.none
         else Val.num (selTotal tbl (weeksAgoSel today n) / selOver tbl (weeksAgoSel today n)))
      else Val.num (selTotal tbl (weeksAgoSel today n))) := by
  unfold ColSpec.eval sumAgg calculate_total_over weeksAgoSel weeksAgoEnd weeksAgoStart
  cases htbl : tbl.hasOver <;> simp [htbl]

/-- C1 counterexample: over the week Mon 2023-10-09 .. Sun 2023-10-15
(anchor Wed 2023-10-11), `tblWeekMix` matches a date with `over = 0`
(2023-10-09) and one with `over = 5`, yet `WeeksAgo(0)` returns
`(10+10)/(0+5) = 4`, not the `None` the claim requires when any matched
date has a zero `over`. -/
theorem weeksAgo_zero_over_counterexample :
    weeksAgoStart ⟨2023, 10, 11⟩ 0 = ⟨2023, 10, 9⟩ ∧
    weeksAgoSel ⟨2023, 10, 11⟩ 0 ⟨2023, 10, 9⟩ = true ∧
    tblWeekMix.hasOver = true ∧
    (⟨⟨2023, 10, 9⟩, 10, 0⟩ : Obs) ∈ tblWeekMix.obs ∧
    ColSpec.eval (.WeeksAgo 0) tblWeekMix ⟨2023, 10, 11⟩ Option.none =
      .ok (.num 4) ∧
    Val.num 4 ≠ Val.none := by
  refine ⟨by decide, by decide, rfl, by decide, ?_, by decide⟩
  have hf : tblWeekMix.obs.filter (fun o => weeksAgoSel ⟨2023, 10, 11⟩ 0 o.date) =
      tblWeekMix.obs := by decide
  show Except.ok (sumAgg tblWeekMix (weeksAgoSel ⟨2023, 10, 11⟩ 0)) = _
  unfold sumAgg selTotal selOver calculate_total_over
  rw [hf]
  norm_num [tblWeekMix]

/-!
## C2 — single-date windows on a missing date
-/

/-- C2 (amended): when neither `DaysAgo(n)`'s target date nor
`MonthAgo(m)`'s clamped target date occurs in the table, evaluation never
raises, and the result is `None` when the table has an `over` series (the
empty sums give `over == 0`) but the float `0` — not `None` — when the
table has only `total` (the empty `total` sum is returned as-is). -/
theorem singleDate_missing_gives_none_or_zero (n m : Nat) (tbl : Table)
    (today : Date) (row : Option PyRow)
    (h1 : ∀ o ∈ tbl.obs, o.date ≠ subDays today n)
    (h2 : ∀ o ∈ tbl.obs, o.date ≠ monthAgoDate today m) :
    ColSpec.eval (.DaysAgo n) tbl today row =
      .ok (if tbl.hasOver then Val.none else Val.num 0) ∧
    ColSpec.eval (.MonthAgo m) tbl today row =
      .ok (if tbl.hasOver then Val.none else Val.num 0) := by
  constructor
  · show Except.ok (sumAgg tbl _) = _
    rw [sumAgg_of_no_match]
    intro o ho
    simpa using h1 o ho
  · show Except.ok (sumAgg tbl _) = _
    rw [sumAgg_of_no_match]
    intro o ho
    simpa using h2 o ho

/-- C2 witness: both single-date windows evaluated over `tblWeekMix`
(which has an `over` series and no observation on the selected dates)
produce `None`. -/
theorem singleDate_missing_witness :
    ColSpec.eval (.DaysAgo 0) tblWeekMix ⟨2023, 10, 11⟩ Option.none = .ok .none ∧
    ColSpec.eval (.MonthAgo 1) tblWeekMix ⟨2023, 10, 11⟩ Option.none = .ok .none := by
  have h := singleDate_missing_gives_none_or_zero 0 1 tblWeekMix ⟨2023, 10, 11⟩
    Option.none (by decide) (by decide)
  simpa [tblWeekMix] using h

/-- C2 counterexample: a total-only table with no observation on the
selected date makes `DaysAgo(0)` return the float `0` (the empty sum), not
the `None` the claim requires. -/
theorem singleDate_missing_counterexample :
    ColSpec.eval (.DaysAgo 0) tblSingleNoOver ⟨2023, 10, 11⟩ Option.none =
      .ok (.num 0) ∧
    Val.num 0 ≠ Val.none := by
  refine ⟨by decide, by decide⟩

/-!
## C5 — `WeekdayWeekend` spans
-/

/-- Evaluate a sum-window aggregate once the filtered observation list is
known. -/
theorem sumAgg_eval (tbl : Table) (p : Date → Bool) (l : List Obs)
    (hf : tbl.obs.filter (fun o => p o.date) = l) :
    sumAgg tbl p = calculate_total_over ((l.map Obs.total).sum)
      (if tbl.hasOver then some ((l.map Obs.over).sum) else Option.none) := by
  unfold sumAgg selTotal selOver
  rw [hf]

/-- C5 (amended): `WeekdayWeekend(n)` selects the single day `anchor - n`
when that day is a weekday; when it falls on a Saturday it sums the
preceding Friday through that Saturday (two days, the following Sunday is
NOT included), and when it falls on a Sunday it sums Friday through Sunday.
The code's span is `[end - (weekday - 4), end]`: it never extends past the
day itself. -/
theorem weekdayWeekend_spans (n : Nat) (tbl : Table) (today : Date)
    (row : Option PyRow) :
    (pyWeekday (subDays today n) < 5 →
      ColSpec.eval (.WeekdayWeekend n) tbl today row =
        .ok (sumAgg tbl (fun d =>
          decide (dateLe (subDays today n) d ∧ dateLe d (subDays today n))))) ∧
    (pyWeekday (subDays today n) = 5 →
      ColSpec.eval (.WeekdayWeekend n) tbl today row =
        .ok (sumAgg tbl (fun d =>
          decide (dateLe (subDays (subDays today n) 1) d ∧ dateLe d (subDays today n))))) ∧
    (pyWeekday (subDays today n) = 6 →
      ColSpec.eval (.WeekdayWeekend n) tbl today row =
        .ok (sumAgg tbl (fun d =>
          decide (dateLe (subDays (subDays today n) 2) d ∧ dateLe d (subDays today n))))) := by
  refine ⟨fun h => ?_, fun h => ?_, fun h => ?_⟩ <;> simp only [ColSpec.eval]
  · rw [if_neg (by omega)]
  · rw [if_pos (by omega), h]
    rfl
  · rw [if_pos (by omega), h]
    rfl

/-- C5 witness: anchor Sat 2023-10-14 (`weekday() = 5`) with `n = 0` sums
exactly Friday 2023-10-13 through Saturday 2023-10-14. -/
theorem weekdayWeekend_spans_witness :
    pyWeekday (subDays ⟨2023, 10, 14⟩ 0) = 5 ∧
    ColSpec.eval (.WeekdayWeekend 0) tblWkd ⟨2023, 10, 14⟩ Option.none =
      .ok (sumAgg tblWkd (fun d =>
        decide (dateLe (subDays (subDays ⟨2023, 10, 14⟩ 0) 1) d ∧
          dateLe d (subDays ⟨2023, 10, 14⟩ 0)))) :=
  ⟨by decide,
    (weekdayWeekend_spans 0 tblWkd ⟨2023, 10, 14⟩ Option.none).2.1 (by decide)⟩

/-- C5 counterexample: with Fri/Sat/Sun totals 1/2/4 and anchor Saturday
2023-10-14, the evaluator returns 1 + 2 = 3, while the whole Fri-Sun span
the claim demands sums to 7 — the Sunday following a Saturday anchor is not
selected. -/
theorem weekdayWeekend_saturday_counterexample :
    pyWeekday (⟨2023, 10, 14⟩ : Date) = 5 ∧
    ColSpec.eval (.WeekdayWeekend 0) tblWkd ⟨2023, 10, 14⟩ Option.none =
      .ok (.num 3) ∧
    selTotal tblWkd (fun d =>
      decide (dateLe ⟨2023, 10, 13⟩ d ∧ dateLe d ⟨2023, 10, 15⟩)) = 7 ∧
    Val.num 3 ≠ Val.num 7 := by
  refine ⟨by decide, ?_, ?_, by decide⟩
  · show Except.ok (sumAgg tblWkd _) = _
    rw [sumAgg_eval _ _ [⟨⟨2023, 10, 13⟩, 1, 0⟩, ⟨⟨2023, 10, 14⟩, 2, 0⟩] (by decide)]
    norm_num [calculate_total_over, tblWkd]
  · unfold selTotal
    rw [show tblWkd.obs.filter (fun o =>
        (fun d => decide (dateLe ⟨2023, 10, 13⟩ d ∧ dateLe d ⟨2023, 10, 15⟩)) o.date) =
        tblWkd.obs from by decide]
    norm_num [tblWkd]

/-!
## C6 — `PctChangeColumn.eval`
-/

/-- C6: when the two window sub-evaluations produce numeric-or-`None`
results, `PctChangeColumn.eval` returns exactly what the spec states:
`None` if either side is `None`, `0` if both are zero, `None` on a zero
base with a nonzero value, and `100 * value / base - 100` otherwise
(`pctChangeSpec` is that specification verbatim). -/
theorem pctChange_eval_spec (nm : YVal) (vs bs : ColSpec) (tbl : Table)
    (today : Date) (row : Option PyRow) (v b : Option ℚ)
    (hv : ColSpec.eval vs tbl today row = .ok (toVal v))
    (hb : ColSpec.eval bs tbl today row = .ok (toVal b)) :
    ParsedColumn.eval (.pctchange nm vs bs) tbl today row =
      .ok (toVal (pctChangeSpec v b)) := by
  simp only [ParsedColumn.eval, hv, hb, bind, Except.bind]
  rcases v with _ | qv <;> rcases b with _ | qb
  · simp [pctChangeCombine, pctChangeSpec, toVal]
  · simp [pctChangeCombine, pctChangeSpec, toVal]
  · simp [pctChangeCombine, pctChangeSpec, toVal]
  · by_cases hqb : qb = 0 <;> by_cases hqv : qv = 0 <;>
      simp [pctChangeCombine, pctChangeSpec, toVal, valIsZero, hqb, hqv]

/-- C6 witness: value 10 (yesterday) against base 5 (the day before) over
`tblPct` gives `100.0`. -/
theorem pctChange_eval_spec_witness :
    ParsedColumn.eval (.pctchange (.str "wow") (.DaysAgo 0) (.DaysAgo 1))
      tblPct ⟨2023, 10, 10⟩ Option.none = .ok (.num 100) := by
  have h := pctChange_eval_spec (.str "wow") (.DaysAgo 0) (.DaysAgo 1) tblPct
    ⟨2023, 10, 10⟩ Option.none (some 10) (some 5) ?_ ?_
  · rw [h]
    norm_num [pctChangeSpec, toVal]
  · show Except.ok (sumAgg tblPct _) = _
    rw [sumAgg_eval _ _ [⟨⟨2023, 10, 10⟩, 10, 0⟩] (by decide)]
    norm_num [calculate_total_over, tblPct, toVal]
  · show Except.ok (sumAgg tblPct _) = _
    rw [sumAgg_eval _ _ [⟨⟨2023, 10, 9⟩, 5, 0⟩] (by decide)]
    norm_num [calculate_total_over, tblPct, toVal]

/-!
## C7 — `MonthAgo` month shifting and day clamping
-/

/-- Every month has at least 28 days. -/
theorem daysInMonth_ge (y m : Int) : 28 ≤ daysInMonth y m := by
  unfold daysInMonth
  split_ifs <;> norm_num

/-- Loop invariant of the month-normalisation loop: the total month count
`12*y + m` is preserved, and on exit the month lies in `1..12` (the upper
bound provided the input month was at most 12). -/
theorem normMonthsAux_spec (k : Nat) : ∀ y m : Int, (1 - m).toNat ≤ k →
    12 * (normMonthsAux y m k).1 + (normMonthsAux y m k).2 = 12 * y + m ∧
    1 ≤ (normMonthsAux y m k).2 ∧ (m ≤ 12 → (normMonthsAux y m k).2 ≤ 12) := by
  induction k with
  | zero =>
    intro y m hk
    have hm : 1 ≤ m := by omega
    refine ⟨?_, ?_, fun _ => ?_⟩ <;> simp only [normMonthsAux] <;> omega
  | succ k ih =>
    intro y m hk
    by_cases hm : m < 1
    · have hstep : normMonthsAux y m (k + 1) = normMonthsAux (y - 1) (m + 12) k := by
        simp only [normMonthsAux, if_pos hm]
      rw [hstep]
      have := ih (y - 1) (m + 12) (by omega)
      omega
    · have hstep : normMonthsAux y m (k + 1) = (y, m) := by
        simp only [normMonthsAux, if_neg hm]
      rw [hstep]
      refine ⟨?_, ?_, fun _ => ?_⟩ <;> omega

/-- The `while new_month < 1` loop shifts year/month without changing the
total month count and lands on a real month. -/
theorem normMonths_spec (y m : Int) (hm : m ≤ 12) :
    12 * (normMonths y m).1 + (normMonths y m).2 = 12 * y + m ∧
    1 ≤ (normMonths y m).2 ∧ (normMonths y m).2 ≤ 12 := by
  have h := normMonthsAux_spec (1 - m).toNat y m le_rfl
  exact ⟨h.1, h.2.1, h.2.2 hm⟩

/-- The `extra_days` loop computes `min(day, last day of the month)` for any
real year/month and positive starting day. -/
theorem clampDayAux_eq (y m : Int) (hy1 : 1 ≤ y) (hy2 : y ≤ 9999)
    (hm1 : 1 ≤ m) (hm2 : m ≤ 12) :
    ∀ d : Nat, 1 ≤ d → clampDayAux y m d = min (d : Int) (daysInMonth y m) := by
  intro d
  induction d with
  | zero => intro h; omega
  | succ k ih =>
    intro _
    have h28 := daysInMonth_ge y m
    by_cases hval : isValidDate y m ((k : Int) + 1)
    · rw [show clampDayAux y m (k + 1) = ((k : Int) + 1) from by
        simp only [clampDayAux, if_pos hval]]
      unfold isValidDate at hval
      push_cast
      omega
    · rw [show clampDayAux y m (k + 1) = clampDayAux y m k from by
        simp only [clampDayAux, if_neg hval]]
      unfold isValidDate at hval
      have hd : daysInMonth y m < (k : Int) + 1 := by omega
      have hk : 1 ≤ k := by omega
      rw [ih hk]
      push_cast
      omega

/-- C7: for a valid anchor date and `n >= 1` (with the shifted year still in
`datetime`'s 1..9999 range, since `date.replace` raises outside it and the
day-decrement loop would then never find a valid day), `MonthAgo(n)` never
raises and selects the single target date obtained by shifting the anchor
back exactly `n` months and clamping the day to the last valid day of the
target month: the target is a valid date, its year/month satisfy
`12*y' + m' = 12*y + m - n`, and its day is `min(anchor day, days in target
month)` — i.e. the day is decremented only when the anchor's day-of-month
does not exist there. -/
theorem monthAgo_clamped_selection (n : Nat) (tbl : Table) (today : Date)
    (row : Option PyRow) (hv : today.valid) (hn : 1 ≤ n)
    (hy1 : 1 ≤ (normMonths today.year (today.month - (n : Int))).1)
    (hy2 : (normMonths today.year (today.month - (n : Int))).1 ≤ 9999) :
    ColSpec.eval (.MonthAgo n) tbl today row =
      .ok (sumAgg tbl (fun d => decide (d = monthAgoDate today n))) ∧
    (monthAgoDate today n).valid ∧
    12 * (monthAgoDate today n).year + (monthAgoDate today n).month =
      12 * today.year + today.month - n ∧
    (monthAgoDate today n).day =
      min today.day (daysInMonth (monthAgoDate today n).year (monthAgoDate today n).month) := by
  unfold Date.valid isValidDate at hv
  obtain ⟨heq, hm1, hm12⟩ := normMonths_spec today.year (today.month - (n : Int)) (by omega)
  have hclamp := clampDayAux_eq (normMonths today.year (today.month - (n : Int))).1
    (normMonths today.year (today.month - (n : Int))).2 hy1 hy2 hm1 hm12
    today.day.toNat (by omega)
  have hday : ((today.day.toNat : Nat) : Int) = today.day := Int.toNat_of_nonneg (by omega)
  have hm : monthAgoDate today n =
      ⟨(normMonths today.year (today.month - (n : Int))).1,
       (normMonths today.year (today.month - (n : Int))).2,
       min today.day (daysInMonth (normMonths today.year (today.month - (n : Int))).1
         (normMonths today.year (today.month - (n : Int))).2)⟩ := by
    simp only [monthAgoDate]
    rw [hclamp, hday]
  refine ⟨rfl, ?_, ?_, ?_⟩
  · rw [hm]
    unfold Date.valid isValidDate
    have h28 := daysInMonth_ge (normMonths today.year (today.month - (n : Int))).1
      (normMonths today.year (today.month - (n : Int))).2
    dsimp only
    omega
  · rw [hm]
    dsimp only
    omega
  · rw [hm]

/-- C7 witness: anchor 2023-03-31 with `n = 1` selects 2023-02-28 (and the
leap anchor 2024-03-31 selects 2024-02-29). -/
theorem monthAgo_clamped_selection_witness :
    (monthAgoDate ⟨2023, 3, 31⟩ 1).valid ∧
    monthAgoDate ⟨2023, 3, 31⟩ 1 = ⟨2023, 2, 28⟩ ∧
    monthAgoDate ⟨2024, 3, 31⟩ 1 = ⟨2024, 2, 29⟩ ∧
    ColSpec.eval (.MonthAgo 1) tblFebEnd ⟨2023, 3, 31⟩ Option.none =
      .ok (sumAgg tblFebEnd (fun d => decide (d = monthAgoDate ⟨2023, 3, 31⟩ 1))) := by
  have h := monthAgo_clamped_selection 1 tblFebEnd ⟨2023, 3, 31⟩ Option.none
    (by decide) (by decide) (by decide) (by decide)
  exact ⟨h.2.1, by decide, by decide, h.1⟩

/-!
## C3 — missing `rows` key, C4 — `goal(<digits>)`, C9 — `evaluate_row` effects
-/

/-- C3: a document with `name` and a `columns` list but no `rows` key makes
`read_config_from_string` raise an uncaught `KeyError("rows")` — the
`isinstance` guard is inside `if "rows" in config` but `config["rows"]` is
evaluated unconditionally, and the `except` clause only catches
`ConfigError` — while a present non-list `rows` does raise
`ConfigError("rows must be a list", 1)` as claimed. -/
theorem rows_absent_keyerror :
    read_config_from_string cfgNoRows = .error (.keyError "rows") ∧
    read_config_from_string cfgRowsNotList =
      .error (.configError "rows must be a list" 1) :=
  ⟨rfl, rfl⟩

/-- C4: the parser resolves `goal(42)` to a `NumberGoal` (the integer
pattern is tried first) and `goal(abc)` to a `FieldGoal`, but
`NumberGoal(m.group(1))` stores the digit *string* without `int()`, so its
evaluation returns the string `"42"`, not the numeric 42. -/
theorem goal_number_stores_string :
    read_column_value_config ['g', 'o', 'a', 'l', '(', '4', '2', ')'] 5 =
      .ok (.NumberGoal ['4', '2']) ∧
    ColSpec.eval (.NumberGoal ['4', '2']) tblSingleNoOver ⟨2023, 1, 1⟩ Option.none =
      .ok (.str ['4', '2']) ∧
    Val.str ['4', '2'] ≠ Val.num 42 ∧
    read_column_value_config ['g', 'o', 'a', 'l', '(', 'a', 'b', 'c', ')'] 5 =
      .ok (.FieldGoal ['a', 'b', 'c']) :=
  ⟨rfl, rfl, by decide, rfl⟩

/-- The column-evaluation loop produces one fresh `ColumnValue` per column,
each carrying the row's display type. -/
theorem evalColumns_shape (df : Table) (yd : Date) (row1 : PyRow) (rt : String) :
    ∀ (cols : List ParsedColumn) (res : List ColumnValue),
      evalColumns df yd row1 rt cols = .ok res →
      res.length = cols.length ∧ ∀ cv ∈ res, cv.type = rt := by
  intro cols
  induction cols with
  | nil =>
    intro res h
    simp only [evalColumns] at h
    cases h
    simp
  | cons c rest ih =>
    intro res h
    simp only [evalColumns, bind, Except.bind] at h
    cases hv : ParsedColumn.eval c df yd (some row1) with
    | error e => rw [hv] at h; cases h
    | ok v =>
      rw [hv] at h
      cases hr : evalColumns df yd row1 rt rest with
      | error e => rw [hr] at h; cases h
      | ok others =>
        rw [hr] at h
        cases h
        have := ih others hr
        constructor
        · simp [this.1]
        · intro cv hcv
          rcases List.mem_cons.mp hcv with h1 | h2
          · rw [h1]
          · exact this.2 cv h2

/-- C9 (amended): `evaluate_row` does mutate the row object — it sets
`row.connection` to the supplied connection and replaces `row.columns` with
the freshly built `ColumnValue` results — but it leaves every parsed
configuration field (`name`, `query`, `type`, `style`, `fields`) unchanged
and does not modify the column definitions it evaluates. -/
theorem evaluate_row_frame (row : PyRow) (cols : List ParsedColumn) (df : Table)
    (yd : Date) (conn : String → Val) (r' : PyRow)
    (h : evaluate_row row cols df yd conn = .ok r') :
    r'.name = row.name ∧ r'.query = row.query ∧ r'.type = row.type ∧
    r'.styleName = row.styleName ∧ r'.fields = row.fields ∧
    r'.connection = some conn ∧
    evalColumns df yd { row with connection := some conn } row.type cols = .ok r'.columns ∧
    r'.columns.length = cols.length ∧
    (∀ cv ∈ r'.columns, cv.type = row.type) := by
  simp only [evaluate_row] at h
  cases hec : evalColumns df yd { row with connection := some conn } row.type cols with
  | error e => rw [hec] at h; cases h
  | ok results =>
    rw [hec] at h
    cases h
    have hs := evalColumns_shape df yd { row with connection := some conn } row.type cols results hec
    exact ⟨rfl, rfl, rfl, rfl, rfl, rfl, rfl, hs.1, hs.2⟩

/-- C9 witness: running `evaluate_row` on `rowFresh` yields exactly
`rowAfterC9`: connection set, one new `ColumnValue`, parsed fields
untouched. -/
theorem evaluate_row_frame_witness :
    evaluate_row rowFresh [.number (.str "c") (.DaysAgo 0)] tblSingleNoOver
      ⟨2023, 10, 11⟩ oracleNone = .ok rowAfterC9 ∧
    rowAfterC9.connection = some oracleNone ∧
    rowAfterC9.fields = rowFresh.fields ∧
    rowAfterC9.name = rowFresh.name := by
  have h := evaluate_row_frame rowFresh [.number (.str "c") (.DaysAgo 0)]
    tblSingleNoOver ⟨2023, 10, 11⟩ oracleNone rowAfterC9 rfl
  exact ⟨rfl, h.2.2.2.2.2.1, h.2.2.2.2.1, h.1⟩

/-- C9 counterexample: the claim says evaluation leaves every field of the
row unchanged, but `evaluate_row` returns the row with `columns` grown from
0 to 1 entries and `connection` switched from absent to set. -/
theorem evaluate_row_mutation_counterexample :
    (evaluate_row rowFresh [.number (.str "c") (.DaysAgo 0)] tblSingleNoOver
        ⟨2023, 10, 9⟩ oracleNone).map
      (fun r => (r.columns.length, r.connection.isSome)) = .ok (1, true) ∧
    rowFresh.columns.length = 0 ∧ rowFresh.connection.isSome = false :=
  ⟨rfl, rfl, rfl⟩

/-!
## C8 — fail-fast validation with accurate lines
-/

/-- Column parsing processes the list in order: a successfully parsed
prefix only prepends to whatever the remainder produces. -/
theorem read_column_config_append_ok (pre : List YVal) (l : List ParsedColumn)
    (h : read_column_config pre = .ok l) (xs : List YVal) :
    read_column_config (pre ++ xs) = (read_column_config xs).map (l ++ ·) := by
  induction pre generalizing l with
  | nil =>
    simp only [read_column_config] at h
    cases h
    cases hx : read_column_config xs <;> simp [Except.map, hx]
  | cons c rest ih =>
    simp only [List.cons_append, read_column_config, bind, Except.bind] at h ⊢
    cases hc : parseColumn c with
    | error e => rw [hc] at h; cases h
    | ok pc =>
      rw [hc] at h
      cases hr : read_column_config rest with
      | error e => rw [hr] at h; cases h
      | ok prest =>
        rw [hr] at h
        cases h
        rw [show read_column_config (rest.append xs) =
          read_column_config (rest ++ xs) from rfl, ih prest hr]
        cases hx : read_column_config xs <;> simp [Except.map, hx]

/-- A column mapping without `type` fails with that column's own
`__line__`. -/
theorem parseColumn_missing_type (col : YVal) (L : Int)
    (ht : yGet "type" col = Option.none) (hl : lineOf col = .ok L) :
    parseColumn col = .error (.configError "missing type attribute for column" L) := by
  simp only [parseColumn, ht, bind, Except.bind, hl]

/-- C8: validation is fail-fast in source order.  (1) A document that has
`name` but lacks `columns` raises `ConfigError("missing toplevel columns
attribute", line 1)`.  (2) With valid toplevel keys, the first column whose
mapping lacks `type` (all columns before it parse) raises `ConfigError`
carrying that column's own `__line__`, not line 1.  (3) The toplevel `name`
check precedes everything: a document lacking `name` stops there — the
first violation wins. -/
theorem config_validation_lines :
    (∀ cfg : List (String × YVal), (dictGet cfg "name").isSome = true →
      dictGet cfg "columns" = Option.none →
      read_config_from_string cfg =
        .error (.configError "missing toplevel columns attribute" 1)) ∧
    (∀ (cfg : List (String × YVal)) (nmv : YVal) (cols : List YVal)
        (pre : List YVal) (col : YVal) (post : List YVal)
        (pl : List ParsedColumn) (L : Int),
      dictGet cfg "name" = some nmv →
      dictGet cfg "columns" = some (.list cols) →
      cols = pre ++ col :: post →
      read_column_config pre = .ok pl →
      yGet "type" col = Option.none →
      lineOf col = .ok L →
      read_config_from_string cfg =
        .error (.configError "missing type attribute for column" L)) ∧
    (∀ cfg : List (String × YVal), dictGet cfg "name" = Option.none →
      read_config_from_string cfg =
        .error (.configError "missing toplevel name attribute" 1)) := by
  refine ⟨?_, ?_, ?_⟩
  · intro cfg hname hcols
    obtain ⟨nv, hnv⟩ := Option.isSome_iff_exists.mp hname
    simp only [read_config_from_string, hnv, hcols]
  · intro cfg nmv cols pre col post pl L hname hcols hsplit hpre htype hline
    have hcol := parseColumn_missing_type col L htype hline
    have hcc : read_column_config cols =
        .error (.configError "missing type attribute for column" L) := by
      rw [hsplit, read_column_config_append_ok pre pl hpre]
      simp only [read_column_config, bind, Except.bind, hcol, Except.map]
    simp only [read_config_from_string, hname, hcols, hcc, bind, Except.bind]
  · intro cfg hname
    simp only [read_config_from_string, hname]

/-- C8 witness: the concrete documents of the Python test-suite shapes —
missing `columns` gives line 1; the second column (line 3) missing `type`
gives line 3; missing `name` stops first. -/
theorem config_validation_lines_witness :
    read_config_from_string cfgMissingCols =
      .error (.configError "missing toplevel columns attribute" 1) ∧
    read_config_from_string cfgColNoType =
      .error (.configError "missing type attribute for column" 3) ∧
    read_config_from_string [("columns", .list []), ("__line__", .int 1)] =
      .error (.configError "missing toplevel name attribute" 1) := by
  refine ⟨config_validation_lines.1 cfgMissingCols rfl rfl,
    config_validation_lines.2.1 cfgColNoType (.str "t") [colSinceY, colNoTypeY]
      [colSinceY] colNoTypeY [] _ 3 rfl rfl rfl rfl rfl rfl,
    config_validation_lines.2.2 _ rfl⟩

/-!
## C10 — `re.match` prefix semantics of the parser
-/

/-- Stripping a pattern off a token that starts with it leaves the rest. -/
theorem stripPref_self_append (p r : List Char) : stripPref p (p ++ r) = some r := by
  induction p with
  | nil => rfl
  | cons c cs ih => simp [stripPref, ih]

/-- A greedy digit run stops exactly at the closing parenthesis. -/
theorem takeDigits_digits_paren (ds s : List Char)
    (h : ∀ c ∈ ds, c.isDigit = true) :
    takeDigits (ds ++ ')' :: s) = (ds, ')' :: s) := by
  induction ds with
  | nil => rfl
  | cons c cs ih =>
    have hc : c.isDigit = true := h c (by simp)
    have ihr := ih (fun x hx => h x (by simp [hx]))
    simp only [List.cons_append, takeDigits, hc, if_pos, List.append_eq, ihr]

/-- `re.match(r"NAME\\((\\d+)\\)", ...)` succeeds on `NAME(<digits>)<anything>`
and captures the digits. -/
theorem matchParenDigits_self (pat ds s : List Char) (h1 : ds ≠ [])
    (h2 : ∀ c ∈ ds, c.isDigit = true) :
    matchParenDigits pat (pat ++ (ds ++ ')' :: s)) = some ds := by
  unfold matchParenDigits
  rw [stripPref_self_append]
  dsimp only
  rw [takeDigits_digits_paren ds s h2]
  simp [h1]

/-- When the argument contains a non-digit (and no `)`), the greedy digit
run stops strictly before the closing parenthesis. -/
theorem takeDigits_stops_nondigit (ds s : List Char) (hnp : ')' ∉ ds)
    (hnd : ¬ ∀ c ∈ ds, c.isDigit = true) :
    ∃ c cs, (takeDigits (ds ++ ')' :: s)).2 = c :: cs ∧ ¬ c = ')' := by
  induction ds with
  | nil => exact absurd (by simp) hnd
  | cons c cs ih =>
    by_cases hc : c.isDigit = true
    · have hnd' : ¬ ∀ x ∈ cs, x.isDigit = true := by
        intro hall
        apply hnd
        intro x hx
        rcases List.mem_cons.mp hx with h | h
        · rw [h]; exact hc
        · exact hall x h
      have hnp' : ')' ∉ cs := fun hmem => hnp (by simp [hmem])
      obtain ⟨c', cs', heq, hne⟩ := ih hnp' hnd'
      refine ⟨c', cs', ?_, hne⟩
      simp only [List.cons_append, takeDigits, hc, if_pos, List.append_eq]
      exact heq
    · refine ⟨c, cs ++ ')' :: s, ?_, fun hcp => hnp (by simp [hcp])⟩
      simp only [List.cons_append, takeDigits, hc, List.append_eq]
      simp

/-- The digits pattern rejects an argument containing a non-digit. -/
theorem matchParenDigits_nondigit (pat ds s : List Char) (hnp : ')' ∉ ds)
    (hnd : ¬ ∀ c ∈ ds, c.isDigit = true) :
    matchParenDigits pat (pat ++ (ds ++ ')' :: s)) = Option.none := by
  obtain ⟨c, cs, heq, hne⟩ := takeDigits_stops_nondigit ds s hnp hnd
  unfold matchParenDigits
  rw [stripPref_self_append]
  dsimp only
  by_cases he : (takeDigits (ds ++ ')' :: s)).1 = []
  · simp [he]
  · rw [if_neg he, heq]
    split
    · rename_i hx heq2
      injection heq2 with hh htl
      exact absurd hh hne
    · rfl

/-- A greedy `[^)]+` run stops exactly at the closing parenthesis. -/
theorem takeNonParen_no_paren (ds s : List Char) (hnp : ')' ∉ ds) :
    takeNonParen (ds ++ ')' :: s) = (ds, ')' :: s) := by
  induction ds with
  | nil => rfl
  | cons c cs ih =>
    have hc : ¬ c = ')' := fun h => hnp (by simp [h])
    have ihr := ih (fun hmem => hnp (by simp [hmem]))
    simp only [List.cons_append, takeNonParen, hc, ite_false, if_neg, List.append_eq, ihr]

/-- `re.match(r"goal\\(([^)]+)\\)", ...)` succeeds on `goal(<arg>)<anything>`
for any nonempty `)`-free argument. -/
theorem matchParenField_self (pat ds s : List Char) (h1 : ds ≠ [])
    (hnp : ')' ∉ ds) :
    matchParenField pat (pat ++ (ds ++ ')' :: s)) = some ds := by
  unfold matchParenField
  rw [stripPref_self_append]
  dsimp only
  rw [takeNonParen_no_paren ds s hnp]
  simp [h1]


/-- `daysago(<digits>)<anything>` parses to `DaysAgo`. -/
theorem parse_daysago_trailing (ds s : List Char) (line : Int) (h1 : ds ≠ [])
    (h2 : ∀ c ∈ ds, c.isDigit = true) :
    read_column_value_config (daysagoPat ++ (ds ++ ')' :: s)) line =
      .ok (.DaysAgo (digitsToNat ds)) := by
  have hm := matchParenDigits_self daysagoPat ds s h1 h2
  unfold read_column_value_config
  rw [hm]
  rfl

/-- `week(<digits>)<anything>` parses to `WeeksAgo`. -/
theorem parse_week_trailing (ds s : List Char) (line : Int) (h1 : ds ≠ [])
    (h2 : ∀ c ∈ ds, c.isDigit = true) :
    read_column_value_config (weekPat ++ (ds ++ ')' :: s)) line =
      .ok (.WeeksAgo (digitsToNat ds)) := by
  have hm := matchParenDigits_self weekPat ds s h1 h2
  unfold read_column_value_config
  rw [hm]
  rfl

/-- `trailingavg(<digits>)<anything>` parses to `TrailingAverage`. -/
theorem parse_trailingavg_trailing (ds s : List Char) (line : Int) (h1 : ds ≠ [])
    (h2 : ∀ c ∈ ds, c.isDigit = true) :
    read_column_value_config (trailingavgPat ++ (ds ++ ')' :: s)) line =
      .ok (.TrailingAverage (digitsToNat ds)) := by
  have hm := matchParenDigits_self trailingavgPat ds s h1 h2
  unfold read_column_value_config
  rw [hm]
  rfl

/-- `month(<digits>)<anything>` parses to `Month`. -/
theorem parse_month_trailing (ds s : List Char) (line : Int) (h1 : ds ≠ [])
    (h2 : ∀ c ∈ ds, c.isDigit = true) :
    read_column_value_config (monthPat ++ (ds ++ ')' :: s)) line =
      .ok (.Month (digitsToNat ds)) := by
  have hm := matchParenDigits_self monthPat ds s h1 h2
  unfold read_column_value_config
  rw [hm]
  rfl

/-- `monthago(<digits>)<anything>` parses to `MonthAgo`. -/
theorem parse_monthago_trailing (ds s : List Char) (line : Int) (h1 : ds ≠ [])
    (h2 : ∀ c ∈ ds, c.isDigit = true) :
    read_column_value_config (monthagoPat ++ (ds ++ ')' :: s)) line =
      .ok (.MonthAgo (digitsToNat ds)) := by
  have hm := matchParenDigits_self monthagoPat ds s h1 h2
  unfold read_column_value_config
  rw [hm]
  rfl

/-- `wtd(<digits>)<anything>` parses to `WeekToDate`. -/
theorem parse_wtd_trailing (ds s : List Char) (line : Int) (h1 : ds ≠ [])
    (h2 : ∀ c ∈ ds, c.isDigit = true) :
    read_column_value_config (wtdPat ++ (ds ++ ')' :: s)) line =
      .ok (.WeekToDate (digitsToNat ds)) := by
  have hm := matchParenDigits_self wtdPat ds s h1 h2
  unfold read_column_value_config
  rw [hm]
  rfl

/-- `mtdavg(<digits>)<anything>` parses to `MonthToDateAverage`. -/
theorem parse_mtdavg_trailing (ds s : List Char) (line : Int) (h1 : ds ≠ [])
    (h2 : ∀ c ∈ ds, c.isDigit = true) :
    read_column_value_config (mtdavgPat ++ (ds ++ ')' :: s)) line =
      .ok (.MonthToDateAverage (digitsToNat ds)) := by
  have hm := matchParenDigits_self mtdavgPat ds s h1 h2
  unfold read_column_value_config
  rw [hm]
  rfl

/-- `mtd(<digits>)<anything>` parses to `MonthToDate`. -/
theorem parse_mtd_trailing (ds s : List Char) (line : Int) (h1 : ds ≠ [])
    (h2 : ∀ c ∈ ds, c.isDigit = true) :
    read_column_value_config (mtdPat ++ (ds ++ ')' :: s)) line =
      .ok (.MonthToDate (digitsToNat ds)) := by
  have hm := matchParenDigits_self mtdPat ds s h1 h2
  unfold read_column_value_config
  rw [hm]
  rfl

/-- `goal(<digits>)<anything>` parses to `NumberGoal` (holding the digit
string). -/
theorem parse_goalNumber_trailing (ds s : List Char) (line : Int) (h1 : ds ≠ [])
    (h2 : ∀ c ∈ ds, c.isDigit = true) :
    read_column_value_config (goalPat ++ (ds ++ ')' :: s)) line =
      .ok (.NumberGoal ds) := by
  have hm := matchParenDigits_self goalPat ds s h1 h2
  unfold read_column_value_config
  rw [hm]
  rfl

/-- `goal(<non-integer arg>)<anything>` parses to `FieldGoal`. -/
theorem parse_goalField_trailing (ds s : List Char) (line : Int) (h1 : ds ≠ [])
    (hnp : ')' ∉ ds) (hnd : ¬ ∀ c ∈ ds, c.isDigit = true) :
    read_column_value_config (goalPat ++ (ds ++ ')' :: s)) line =
      .ok (.FieldGoal ds) := by
  have hm1 := matchParenDigits_nondigit goalPat ds s hnp hnd
  have hm2 := matchParenField_self goalPat ds s h1 hnp
  unfold read_column_value_config
  rw [hm1, hm2]
  rfl

/-- `since(YYYY-MM-DD)<anything>` with a real calendar date parses to
`SinceDate`. -/
theorem parse_since_trailing (y1 y2 y3 y4 m1 m2 d1 d2 : Char) (s : List Char)
    (line : Int)
    (hd : (y1.isDigit && y2.isDigit && y3.isDigit && y4.isDigit &&
      m1.isDigit && m2.isDigit && d1.isDigit && d2.isDigit) = true)
    (hv : isValidDate (digitsToNat [y1, y2, y3, y4]) (digitsToNat [m1, m2])
      (digitsToNat [d1, d2])) :
    read_column_value_config
      (sincePat ++ (y1 :: y2 :: y3 :: y4 :: '-' :: m1 :: m2 :: '-' :: d1 :: d2 :: ')' :: s))
      line =
      .ok (.SinceDate ⟨digitsToNat [y1, y2, y3, y4], digitsToNat [m1, m2],
        digitsToNat [d1, d2]⟩) := by
  have hm : matchSince
      (sincePat ++ (y1 :: y2 :: y3 :: y4 :: '-' :: m1 :: m2 :: '-' :: d1 :: d2 :: ')' :: s)) =
      some ((digitsToNat [y1, y2, y3, y4] : Int), (digitsToNat [m1, m2] : Int),
        (digitsToNat [d1, d2] : Int)) := by
    unfold matchSince
    rw [stripPref_self_append]
    show (if (y1.isDigit && y2.isDigit && y3.isDigit && y4.isDigit &&
        m1.isDigit && m2.isDigit && d1.isDigit && d2.isDigit) = true then
        some ((digitsToNat [y1, y2, y3, y4] : Int), (digitsToNat [m1, m2] : Int),
          (digitsToNat [d1, d2] : Int))
      else Option.none) = _
    rw [hd]
    rfl
  unfold read_column_value_config
  rw [hm]
  show (if isValidDate (digitsToNat [y1, y2, y3, y4] : Int) (digitsToNat [m1, m2] : Int)
      (digitsToNat [d1, d2] : Int) then
      Except.ok (ColSpec.SinceDate ⟨(digitsToNat [y1, y2, y3, y4] : Int),
        (digitsToNat [m1, m2] : Int), (digitsToNat [d1, d2] : Int)⟩)
    else Except.error PyErr.valueError) = _
  rw [if_pos hv]

/-- C10: every parameterized pattern is matched `re.match`-style at the
start of the token only — for every token consisting of a valid
parameterized expression followed by arbitrary trailing characters, parsing
succeeds with the `WindowSpec` of the valid prefix instead of raising
`ConfigError`.  Covers all nine `NAME(<digits>)` forms, `goal(<non-integer
identifier>)`, and `since(YYYY-MM-DD)`. -/
theorem prefix_match_ignores_trailing :
    (∀ (ds s : List Char) (line : Int), ds ≠ [] → (∀ c ∈ ds, c.isDigit = true) →
      read_column_value_config (daysagoPat ++ (ds ++ ')' :: s)) line =
        .ok (.DaysAgo (digitsToNat ds)) ∧
      read_column_value_config (weekPat ++ (ds ++ ')' :: s)) line =
        .ok (.WeeksAgo (digitsToNat ds)) ∧
      read_column_value_config (trailingavgPat ++ (ds ++ ')' :: s)) line =
        .ok (.TrailingAverage (digitsToNat ds)) ∧
      read_column_value_config (monthPat ++ (ds ++ ')' :: s)) line =
        .ok (.Month (digitsToNat ds)) ∧
      read_column_value_config (monthagoPat ++ (ds ++ ')' :: s)) line =
        .ok (.MonthAgo (digitsToNat ds)) ∧
      read_column_value_config (wtdPat ++ (ds ++ ')' :: s)) line =
        .ok (.WeekToDate (digitsToNat ds)) ∧
      read_column_value_config (mtdavgPat ++ (ds ++ ')' :: s)) line =
        .ok (.MonthToDateAverage (digitsToNat ds)) ∧
      read_column_value_config (mtdPat ++ (ds ++ ')' :: s)) line =
        .ok (.MonthToDate (digitsToNat ds)) ∧
      read_column_value_config (goalPat ++ (ds ++ ')' :: s)) line =
        .ok (.NumberGoal ds)) ∧
    (∀ (ds s : List Char) (line : Int), ds ≠ [] → ')' ∉ ds →
      ¬ (∀ c ∈ ds, c.isDigit = true) →
      read_column_value_config (goalPat ++ (ds ++ ')' :: s)) line =
        .ok (.FieldGoal ds)) ∧
    (∀ (y1 y2 y3 y4 m1 m2 d1 d2 : Char) (s : List Char) (line : Int),
      (y1.isDigit && y2.isDigit && y3.isDigit && y4.isDigit &&
        m1.isDigit && m2.isDigit && d1.isDigit && d2.isDigit) = true →
      isValidDate (digitsToNat [y1, y2, y3, y4]) (digitsToNat [m1, m2])
        (digitsToNat [d1, d2]) →
      read_column_value_config
        (sincePat ++ (y1 :: y2 :: y3 :: y4 :: '-' :: m1 :: m2 :: '-' :: d1 :: d2 :: ')' :: s))
        line =
        .ok (.SinceDate ⟨digitsToNat [y1, y2, y3, y4], digitsToNat [m1, m2],
          digitsToNat [d1, d2]⟩)) :=
  ⟨fun ds s line h1 h2 =>
    ⟨parse_daysago_trailing ds s line h1 h2, parse_week_trailing ds s line h1 h2,
     parse_trailingavg_trailing ds s line h1 h2, parse_month_trailing ds s line h1 h2,
     parse_monthago_trailing ds s line h1 h2, parse_wtd_trailing ds s line h1 h2,
     parse_mtdavg_trailing ds s line h1 h2, parse_mtd_trailing ds s line h1 h2,
     parse_goalNumber_trailing ds s line h1 h2⟩,
   fun ds s line h1 hnp hnd => parse_goalField_trailing ds s line h1 hnp hnd,
   fun y1 y2 y3 y4 m1 m2 d1 d2 s line hd hv =>
     parse_since_trailing y1 y2 y3 y4 m1 m2 d1 d2 s line hd hv⟩

/-- C10 witness: `daysago(3)garbage` parses to `DaysAgo 3`, `goal(ab)x` to
`FieldGoal "ab"`, and `since(2000-01-01))` to `SinceDate 2000-01-01`. -/
theorem prefix_match_ignores_trailing_witness :
    read_column_value_config
      (daysagoPat ++ (['3'] ++ ')' :: ['g', 'a', 'r', 'b', 'a', 'g', 'e'])) 7 =
      .ok (.DaysAgo 3) ∧
    read_column_value_config (goalPat ++ (['a', 'b'] ++ ')' :: ['x'])) 7 =
      .ok (.FieldGoal ['a', 'b']) ∧
    read_column_value_config
      (sincePat ++ ('2' :: '0' :: '0' :: '0' :: '-' :: '0' :: '1' :: '-' :: '0' :: '1' :: ')' :: [')'])) 7 =
      .ok (.SinceDate ⟨2000, 1, 1⟩) :=
  ⟨(prefix_match_ignores_trailing.1 ['3'] ['g', 'a', 'r', 'b', 'a', 'g', 'e'] 7
      (by decide) (by decide)).1,
   prefix_match_ignores_trailing.2.1 ['a', 'b'] ['x'] 7 (by decide) (by decide)
     (by decide),
   prefix_match_ignores_trailing.2.2 '2' '0' '0' '0' '0' '1' '0' '1' [')'] 7
     (by decide) (by decide)⟩
